import Mathlib

/-!
# Verification of the NAPI allocation-engine specification

A shallow embedding of the IP/network allocation engine (sdc-napi):
the IP model (src/lib/models/ip/common.js, src/lib/models/ip/index.js),
the network-pool validation (src/lib/models/network-pool.js), and the
store adapter and batch coordinator (src/lib/apis/moray.js and the NIC
common module).  JavaScript objects are embedded as structures with
`Option` fields for properties that may be absent; the remote store is
an external collaborator and is modelled from its interface contract.
-/

namespace Napi

/-! ## Addresses and networks

`util_ip.toIPAddr` produces an address object with a numeric form
(`toLong`) and a canonical string form (`toString`); the claims treated
here never need the arithmetic relating the two, so an address is kept
as the pair of its representations. -/

/-- An IPv4 address value as the code sees it: `long` is `toLong()`
(the 32-bit numeric form) and `str` is `toString()` (the canonical
string form). -/
structure IPAddr where
  long : Nat
  str : String
deriving DecidableEq, Repr

/-- The slice of a network object that the IP model reads:
`uuid`, the per-network address-encoding flag `ip_use_strings`, and the
`fabric` flag. -/
structure Network where
  uuid : String
  ip_use_strings : Bool := false
  fabric : Bool := false
deriving DecidableEq, Repr

/-- Modelled from the spec: `constants.UFDS_ADMIN_UUID` (util/constants.js
is not among the sources) is the site-configured administrative owner
UUID (spec section 3 and 4.3); its concrete value is irrelevant to every
claim, so a fixed placeholder string is used. -/
def UFDS_ADMIN_UUID : String := "ufds-admin-uuid"

/-! ## The IP object (src/lib/models/ip/common.js)

State of an `IP` instance after the constructor has run: `reserved` has
been coerced to a boolean when present, `etag` defaults to `null`
(`none`), and `use_strings` has been derived from the params or the
network. -/

/-- An `IP` model instance (post-constructor state). `Option` fields are
`none` when the corresponding property is absent. -/
structure IPObj where
  network : Network
  network_uuid : String
  ip : IPAddr
  reserved : Option Bool := none
  belongs_to_type : Option String := none
  belongs_to_uuid : Option String := none
  owner_uuid : Option String := none
  etag : Option String := none
  use_strings : Bool := false
deriving DecidableEq, Repr

/-- JavaScript truthiness of an optional string property: absent (`none`)
and the empty string are falsy, every other string is truthy. -/
def strTruthy : Option String → Bool
  | none => false
  | some s => !(s = "")

/-- The raw (store row) form of an IP record, as built by `IP.raw()` and
by `deleteIP`.  All fields except `reserved` may be absent from a row,
so they are `Option`s. -/
structure RawIP where
  reserved : Bool
  use_strings : Option Bool := none
  ip : Option Nat := none
  ipaddr : Option String := none
  v : Option Nat := none
  belongs_to_type : Option String := none
  belongs_to_uuid : Option String := none
  owner_uuid : Option String := none
deriving DecidableEq, Repr

/-- `BUCKET.version` for the per-network IP buckets. -/
def IP_BUCKET_VERSION : Nat := 2

/-- `IP.prototype.raw()`: the row to store.  `reserved` is the
truthiness of the param; with `use_strings` the address is stored as
`ipaddr` plus the schema version `v`, otherwise as the numeric `ip`;
the optional params are copied when present. -/
def IPObj.raw (o : IPObj) : RawIP :=
  { reserved := o.reserved = some true
    use_strings := some o.use_strings
    ip := if o.use_strings then none else some o.ip.long
    ipaddr := if o.use_strings then some o.ip.str else none
    v := if o.use_strings then some IP_BUCKET_VERSION else none
    belongs_to_type := o.belongs_to_type
    belongs_to_uuid := o.belongs_to_uuid
    owner_uuid := o.owner_uuid }

/-- The serialized (API-facing) form built by `IP.prototype.serialize()`:
`ip`, `network_uuid`, `reserved` and `free` are always present, the
owning fields only when present on the record. -/
structure SerializedIP where
  ip : String
  network_uuid : String
  reserved : Bool
  free : Bool
  belongs_to_type : Option String := none
  belongs_to_uuid : Option String := none
  owner_uuid : Option String := none
deriving DecidableEq, Repr

/-- `IP.prototype.serialize()`: `free` starts as the negation of the
`reserved` truthiness and is forced to `false` by each of the
`OPTIONAL_PARAMS` (`belongs_to_type`, `belongs_to_uuid`, `owner_uuid`)
that is present; present optional params are copied into the output. -/
def IPObj.serialize (o : IPObj) : SerializedIP :=
  let free0 : Bool := if o.reserved = some true then false else true
  let free1 : Bool := if o.belongs_to_type.isSome then false else free0
  let free2 : Bool := if o.belongs_to_uuid.isSome then false else free1
  let free3 : Bool := if o.owner_uuid.isSome then false else free2
  { ip := o.ip.str
    network_uuid := o.network.uuid
    reserved := o.reserved = some true
    free := free3
    belongs_to_type := o.belongs_to_type
    belongs_to_uuid := o.belongs_to_uuid
    owner_uuid := o.owner_uuid }

/-- `IP.prototype.provisionable()`: true when either belongs-to field is
falsy, or when the record is an `other`-typed placeholder owned by the
administrative owner. -/
def IPObj.provisionable (o : IPObj) : Bool :=
  if !(strTruthy o.belongs_to_uuid) || !(strTruthy o.belongs_to_type) then
    true
  else if o.belongs_to_type = some "other" &&
      o.belongs_to_uuid = some UFDS_ADMIN_UUID then
    true
  else
    false

/-- `bucketName(networkUUID)`: the per-network IP bucket name, with
dashes replaced by underscores. -/
def bucketName (networkUUID : String) : String :=
  "napi_ips_" ++ networkUUID.replace "-" "_"

/-- `getIPKey(use_strings, ipaddr)`: the row key is the decimal numeric
form unless the network uses string addressing. -/
def getIPKey (use_strings : Bool) (ipaddr : IPAddr) : String :=
  if !use_strings then toString ipaddr.long else ipaddr.str

/-- `IP.prototype.key()`. -/
def IPObj.key (o : IPObj) : String :=
  getIPKey o.use_strings o.ip

/-- A moray batch entry produced by the IP model (`IP.prototype.batch()`
and friends): a `put` of the raw row under the per-network bucket, with
an `options.etag` value (`none` embeds JavaScript `null`). -/
structure IPBatchObj where
  bucket : String
  key : String
  operation : String
  value : RawIP
  etag : Option String
deriving DecidableEq, Repr

/-- `IP.prototype.batch()`. -/
def IPObj.batch (o : IPObj) : IPBatchObj :=
  { bucket := bucketName o.network_uuid
    key := o.key
    operation := "put"
    value := o.raw
    etag := o.etag }

/-- `IP.prototype.unassignBatch()`: start from `batch()`, delete
`owner_uuid` from the value only when the record is not reserved, then
delete both belongs-to fields. -/
def IPObj.unassignBatch (o : IPObj) : IPBatchObj :=
  let b := o.batch
  let v := b.value
  let v := if !(o.reserved = some true) then { v with owner_uuid := none } else v
  let v := { v with belongs_to_type := none, belongs_to_uuid := none }
  { b with value := v }

/-- The `unassign` path of `updateIP` (src/lib/models/ip/index.js):
`updateObj` is called with `remove: true` and
`val = \x7b belongs_to_type, belongs_to_uuid \x7d`, so the stored row is
rewritten with exactly those two keys deleted and everything else
(including `owner_uuid` and `reserved`) untouched. -/
def updateIPUnassignRow (row : RawIP) : RawIP :=
  { row with belongs_to_type := none, belongs_to_uuid := none }

/-- A concrete assigned, unreserved row (owner and belongs-to set). -/
def exAssignedRow : RawIP :=
  { reserved := false
    use_strings := some false
    ip := some 167772217
    belongs_to_type := some "zone"
    belongs_to_uuid := some "aaaaaaaa-0000-0000-0000-000000000001"
    owner_uuid := some "bbbbbbbb-0000-0000-0000-000000000002" }

/-! ## Claims about the IP object -/

/-- C2: for every IP record, the serialized form has `free = true` iff
none of `belongs_to_type`, `belongs_to_uuid`, `owner_uuid` is present
and `reserved` is not set; and the serialized form always carries the
`ip`, `network_uuid`, `reserved` and `free` fields (the first two copied
from the record, `reserved` as the truthiness of the reserved flag). -/
theorem ip_serialize_free_iff (o : IPObj) :
    (o.serialize.free = true ↔
      (o.belongs_to_type = none ∧ o.belongs_to_uuid = none ∧
        o.owner_uuid = none ∧ o.reserved ≠ some true)) ∧
    o.serialize.ip = o.ip.str ∧
    o.serialize.network_uuid = o.network.uuid ∧
    o.serialize.reserved = decide (o.reserved = some true) := by
  refine ⟨?_, rfl, rfl, by simp [IPObj.serialize]⟩
  simp only [IPObj.serialize]
  rcases o.belongs_to_type with _ | t <;>
    rcases o.belongs_to_uuid with _ | u <;>
      rcases o.owner_uuid with _ | w <;>
        rcases hr : o.reserved with _ | b <;> simp [hr]

/-- C3: `provisionable()` is true iff the record lacks a (truthy)
`belongs_to_uuid` or lacks a (truthy) `belongs_to_type`, or the pair is
the `other`-typed placeholder under the administrative owner UUID. -/
theorem ip_provisionable_iff (o : IPObj) :
    o.provisionable = true ↔
      ((o.belongs_to_uuid = none ∨ o.belongs_to_uuid = some "") ∨
       (o.belongs_to_type = none ∨ o.belongs_to_type = some "") ∨
       (o.belongs_to_type = some "other" ∧
        o.belongs_to_uuid = some UFDS_ADMIN_UUID)) := by
  simp only [IPObj.provisionable, strTruthy]
  rcases o.belongs_to_type with _ | t <;>
    rcases o.belongs_to_uuid with _ | u <;>
      simp [imp_iff_not_or, and_comm, or_comm, or_left_comm]

/-- C4 counterexample: on the `updateIP` unassign path, for the concrete
assigned record `exAssignedRow` with `reserved = false` and
`owner_uuid` set, the operation keeps `owner_uuid` in the stored row,
whereas the claim states that `owner_uuid` is cleared whenever
`reserved` is false. -/
theorem ip_unassign_update_path_keeps_owner :
    exAssignedRow.reserved = false ∧
    exAssignedRow.owner_uuid =
      some "bbbbbbbb-0000-0000-0000-000000000002" ∧
    (updateIPUnassignRow exAssignedRow).owner_uuid =
      some "bbbbbbbb-0000-0000-0000-000000000002" :=
  ⟨rfl, rfl, rfl⟩

/-- C4 (amended): both unassign paths clear `belongs_to_type` and
`belongs_to_uuid`; `unassignBatch` clears `owner_uuid` exactly when the
record is not reserved (a reserved record keeps its owner and its row
stays reserved), while the `updateIP` unassign path keeps `owner_uuid`
and `reserved` unchanged regardless of the reserved flag. -/
theorem ip_unassign_amended (o : IPObj) (row : RawIP) :
    (o.unassignBatch.value.belongs_to_type = none ∧
     o.unassignBatch.value.belongs_to_uuid = none ∧
     o.unassignBatch.value.owner_uuid =
       (if o.reserved = some true then o.owner_uuid else none) ∧
     o.unassignBatch.value.reserved = decide (o.reserved = some true)) ∧
    ((updateIPUnassignRow row).belongs_to_type = none ∧
     (updateIPUnassignRow row).belongs_to_uuid = none ∧
     (updateIPUnassignRow row).owner_uuid = row.owner_uuid ∧
     (updateIPUnassignRow row).reserved = row.reserved) := by
  refine ⟨⟨?_, ?_, ?_, ?_⟩, rfl, rfl, rfl, rfl⟩ <;>
    simp only [IPObj.unassignBatch, IPObj.batch, IPObj.raw] <;>
      by_cases h : o.reserved = some true <;> simp [h]

/-! ## The store boundary and the IP operations that write through it
(src/lib/models/ip/index.js) -/

/-- A `putObject` request as the IP operations build it: target bucket
and key, the row value, and the `options.etag` expectation when the
options were supplied (`some none` embeds an explicit `etag: null`,
`none` embeds calling without an etag option). -/
structure PutOp where
  bucket : String
  key : String
  operation : String
  value : RawIP
  expected : Option (Option String)
deriving DecidableEq, Repr

/-- Modelled from the spec: the store boundary of section 6 —
`put(bucket, key, value, \x7bexpectedVersionToken\x7d)` succeeds or
reports `VersionConflict`.  Without an expected token the put is
unconditional; an explicit `null` token demands that the row not yet
exist (section 4.3: a create must fail when a concurrent writer has
already created the row); a non-null token must equal the current row
version.  The store itself is an external collaborator, not code of
this repository. -/
def putConflicts (existing : Option String) (expected : Option (Option String)) : Bool :=
  match expected with
  | none => false
  | some none => existing.isSome
  | some (some e) => !(existing = some e)

/-- One bucket of the modelled store: rows keyed by string, each a row
value paired with its current version token. -/
def Store : Type := String → Option (RawIP × String)

/-- Applying a put to the modelled store: `none` on version conflict
(the store is unchanged and the batch is rejected), otherwise the row is
written under its key with a fresh version token.  A put never removes
a row. -/
def applyPut (st : Store) (p : PutOp) (newTag : String) : Option Store :=
  if putConflicts ((st p.key).map Prod.snd) p.expected then
    none
  else
    some (fun k => if k = p.key then some (p.value, newTag) else st k)

/-- The engine error taxonomy slice used by the IP operations. -/
inductive NapiErr where
  | notFound (msg : String)
  | invalidArgument (msg : String)
deriving DecidableEq, Repr

/-- The synthetic record built by `getIP` when the row is absent and
`returnObject` is set: `new IP(\x7betag: null, free: true, ip, network,
network_uuid, reserved: false\x7d)` (the inert `free` param is stored but
never read).  The constructor leaves `etag = null`, keeps the boolean
`reserved`, and derives `use_strings` from the network. -/
def syntheticFreeIP (net : Network) (nu : String) (a : IPAddr) : IPObj :=
  { network := net
    network_uuid := nu
    ip := a
    reserved := some false
    etag := none
    use_strings := net.ip_use_strings }

/-- Rebuilding an `IP` from a fetched row in `getIP`: the network and
`network_uuid` params are attached, `etag` is the record version, and
the constructor derives `use_strings` from the row or the network
(JavaScript `params.use_strings || network.ip_use_strings`). -/
def ipOfRecord (net : Network) (nu : String) (decodeAddr : RawIP → IPAddr)
    (val : RawIP) (etg : String) : IPObj :=
  { network := net
    network_uuid := nu
    ip := decodeAddr val
    reserved := some val.reserved
    belongs_to_type := val.belongs_to_type
    belongs_to_uuid := val.belongs_to_uuid
    owner_uuid := val.owner_uuid
    etag := some etg
    use_strings := match val.use_strings with
      | some true => true
      | _ => net.ip_use_strings }

/-- `getIP` (src/lib/models/ip/index.js), with the store round trip made
explicit: `lookup` is the `getObj` outcome for the row key (`none`
embeds the 404 not-found path).  `decodeAddr` stands for
`util_ip.toIPAddr` applied to the stored address field; util/ip.js is
not among the sources and none of the claims depends on it, so it is a
parameter. -/
def getIP (net : Network) (nu : String) (a : IPAddr) (returnObject : Bool)
    (lookup : Option (RawIP × String)) (decodeAddr : RawIP → IPAddr) :
    Except NapiErr IPObj :=
  match lookup with
  | none =>
    if returnObject then
      .ok (syntheticFreeIP net nu a)
    else
      .error (.notFound "IP not found")
  | some (val, etg) => .ok (ipOfRecord net nu decodeAddr val etg)

/-- The store write issued by `createIP` for the constructed IP object:
`putObject(ipBucket.name, key, ip.raw(), \x7betag: null\x7d)` — the bucket
comes from the validated network UUID and the expected version token is
an explicit `null`. -/
def createIPOp (o : IPObj) : PutOp :=
  { bucket := bucketName o.network.uuid
    key := o.key
    operation := "put"
    value := o.raw
    expected := some none }

/-- The cleared row value that `deleteIP` writes: `reserved: false` plus
only the address field in the encoding of the network. -/
def deleteIPVal (use_strings : Bool) (a : IPAddr) : RawIP :=
  { reserved := false
    ip := if use_strings then none else some a.long
    ipaddr := if use_strings then some a.str else none }

/-- The store write issued by `deleteIP`: a `putObject` of the cleared
row under the existing key, with `options.etag` set to the existing
record version token. -/
def deleteIPOp (net : Network) (a : IPAddr) (existingEtag : Option String) : PutOp :=
  { bucket := bucketName net.uuid
    key := getIPKey net.ip_use_strings a
    operation := "put"
    value := deleteIPVal net.ip_use_strings a
    expected := some existingEtag }

/-- `batchCreateIPs`: each entry of `params.batch` is turned into a
`put` of the raw row into the bucket of `params.network_uuid`, with no
options object at all (so no etag expectation). -/
def batchCreateIPs (network_uuid : String) (ipObjs : List IPObj) : List PutOp :=
  ipObjs.map (fun ip =>
    { bucket := bucketName network_uuid
      key := ip.key
      operation := "put"
      value := ip.raw
      expected := none })

/-! ## Claims about the IP store operations -/

/-- C5: a get of an absent row with `returnObject` yields the synthetic
free record — `etag = null`, `reserved = false`, serializing as free —
while without `returnObject` it fails with the not-found error; and
`createIP` writes with an expected version token of `null`, which
conflicts whenever the row already exists (whatever its version). -/
theorem getIP_absent_and_create_conflict (net : Network) (nu : String)
    (a : IPAddr) (decodeAddr : RawIP → IPAddr) (o : IPObj)
    (existingTag : String) :
    getIP net nu a true none decodeAddr = .ok (syntheticFreeIP net nu a) ∧
    (syntheticFreeIP net nu a).etag = none ∧
    (syntheticFreeIP net nu a).reserved = some false ∧
    (syntheticFreeIP net nu a).serialize.free = true ∧
    getIP net nu a false none decodeAddr = .error (.notFound "IP not found") ∧
    (createIPOp o).expected = some none ∧
    putConflicts (some existingTag) (createIPOp o).expected = true :=
  ⟨rfl, rfl, rfl, rfl, rfl, rfl, rfl⟩

/-- C6: `deleteIP` emits a `put` (never a row removal) of a cleared
record — `reserved = false`, no belongs-to or owner fields, only the
address field kept in the network encoding — expecting the existing
record version token; applying it to any store either reports a
conflict (leaving the store unchanged) or leaves the key present,
mapped to the cleared row. -/
theorem deleteIP_overwrites_row (net : Network) (a : IPAddr)
    (etg : Option String) (st : Store) (newTag : String) :
    (deleteIPOp net a etg).operation = "put" ∧
    (deleteIPOp net a etg).bucket = bucketName net.uuid ∧
    (deleteIPOp net a etg).value.reserved = false ∧
    (deleteIPOp net a etg).value.belongs_to_type = none ∧
    (deleteIPOp net a etg).value.belongs_to_uuid = none ∧
    (deleteIPOp net a etg).value.owner_uuid = none ∧
    (deleteIPOp net a etg).value.ip =
      (if net.ip_use_strings then none else some a.long) ∧
    (deleteIPOp net a etg).value.ipaddr =
      (if net.ip_use_strings then some a.str else none) ∧
    (deleteIPOp net a etg).expected = some etg ∧
    (applyPut st (deleteIPOp net a etg) newTag = none ∨
      ∃ st2, applyPut st (deleteIPOp net a etg) newTag = some st2 ∧
        st2 (getIPKey net.ip_use_strings a) =
          some (deleteIPVal net.ip_use_strings a, newTag)) := by
  refine ⟨rfl, rfl, rfl, rfl, rfl, rfl, rfl, rfl, rfl, ?_⟩
  by_cases h :
      putConflicts ((st (deleteIPOp net a etg).key).map Prod.snd)
        (deleteIPOp net a etg).expected
  · exact Or.inl (by simp [applyPut, h])
  · refine Or.inr ⟨fun k => if k = (deleteIPOp net a etg).key then
        some ((deleteIPOp net a etg).value, newTag) else st k, ?_, ?_⟩
    · simp [applyPut, h]
    · simp [deleteIPOp]

/-- C10: every store mutation emitted by `batchCreateIPs` is a `put`
into the IP bucket of the given network with no etag expectation, and
such a put never conflicts, whatever row (if any) already sits under the
key — it overwrites unconditionally. -/
theorem batchCreateIPs_put_no_etag (nu : String) (l : List IPObj)
    (p : PutOp) (hp : p ∈ batchCreateIPs nu l) :
    p.operation = "put" ∧
    p.bucket = bucketName nu ∧
    p.expected = none ∧
    ∀ existing : Option String, putConflicts existing p.expected = false := by
  rcases List.mem_map.mp hp with ⟨ip, _, rfl⟩
  exact ⟨rfl, rfl, rfl, fun _ => rfl⟩

/-- A concrete IP object for exercising `batchCreateIPs`. -/
def exBatchIP : IPObj :=
  { network := { uuid := "net-1" }
    network_uuid := "net-1"
    ip := { long := 167772215, str := "10.0.0.55" }
    reserved := some false }

/-- The single store mutation `batchCreateIPs` emits for `exBatchIP`. -/
def exBatchPut : PutOp :=
  { bucket := bucketName "net-1"
    key := exBatchIP.key
    operation := "put"
    value := exBatchIP.raw
    expected := none }

/-- Witness for C10 at a concrete input. -/
theorem batchCreateIPs_put_no_etag_witness :
    exBatchPut ∈ batchCreateIPs "net-1" [exBatchIP] ∧
    exBatchPut.expected = none ∧
    putConflicts (some "et-1") exBatchPut.expected = false := by
  have hm : exBatchPut ∈ batchCreateIPs "net-1" [exBatchIP] := by
    simp [batchCreateIPs, exBatchPut]
  have h := batchCreateIPs_put_no_etag "net-1" [exBatchIP] _ hm
  exact ⟨hm, h.2.2.1, h.2.2.2 (some "et-1")⟩

/-! ## Network pool validation (src/lib/models/network-pool.js) -/

/-- The slice of a resolved network that `validateNetworks` reads. -/
structure NetRec where
  nic_tag : String
deriving DecidableEq, Repr

/-- `errors.invalidParam(field, message)`, optionally carrying the
`invalid` list that the caller attaches for unknown networks. -/
structure InvalidParamErr where
  field : String
  message : String
  invalid : Option (List String) := none
deriving DecidableEq, Repr

/-- The successful result of `validateNetworks`: the resolved networks
(`_networks`) and the validated UUID list. -/
structure VNetsOk where
  networks : List NetRec
  validated : List String
deriving DecidableEq, Repr

/-- `MAX_NETS`. -/
def MAX_NETS : Nat := 64

/-- Modelled from the spec: `constants.POOL_TAGS_MATCH_MSG`
(util/constants.js is not among the sources), the fixed
tags-do-not-match message (spec section 8); no claim depends on its
exact text. -/
def POOL_TAGS_MATCH_MSG : String :=
  "nic_tags of all networks in a network pool must match"

/-- The accumulators of the `validateNetworks` per-UUID loop. -/
structure VNState where
  nets : List NetRec := []
  notFound : List String := []
  tag : Option String := none
  tagsNotMatching : List String := []
  validated : List String := []
deriving DecidableEq, Repr

/-- One iteration of the `validateNetworks` loop: resolve the UUID
(`resolve` embeds `mod_net.get`; `none` covers both the error and the
missing-result cases, which are treated alike), latch the first resolved
nic tag, and sort the UUID into the matching accumulator.  The source
runs the iterations through `vasync.forEachParallel`; the embedding
folds them in submission order (for the properties proved here the
outcome does not depend on completion order). -/
def vnStep (resolve : String → Option NetRec) (st : VNState) (uuid : String) :
    VNState :=
  match resolve uuid with
  | none => { st with notFound := st.notFound ++ [uuid] }
  | some res =>
    let tag := match st.tag with
      | none => res.nic_tag
      | some t => t
    if !(res.nic_tag = tag) then
      { st with tag := some tag,
                tagsNotMatching := st.tagsNotMatching ++ [uuid] }
    else
      { st with tag := some tag,
                nets := st.nets ++ [res],
                validated := st.validated ++ [uuid] }

/-- `validateNetworks`: reject over-long lists up front with the single
maximum-count error; otherwise resolve every UUID, then report unknown
networks as one aggregated error carrying the `invalid` list, then
report tag mismatches with the fixed message (note: no `invalid` list is
attached on that path), and otherwise return the resolved set. -/
def validateNetworks (resolve : String → Option NetRec) (name : String)
    (uuids : List String) : Except InvalidParamErr VNetsOk :=
  if uuids.length > MAX_NETS then
    .error { field := name,
             message := s!"maximum {MAX_NETS} networks per network pool" }
  else
    let st := uuids.foldl (vnStep resolve) {}
    if !(st.notFound = []) then
      .error { field := name,
               message := if st.notFound.length = 1 then
                   "unknown network"
                 else
                   "unknown networks",
               invalid := some st.notFound }
    else if !(st.tagsNotMatching = []) then
      .error { field := name, message := POOL_TAGS_MATCH_MSG }
    else
      .ok { networks := st.nets, validated := st.validated }

/-! ## Claims about validateNetworks -/

/-- C7: past `MAX_NETS` candidate UUIDs, `validateNetworks` fails with
the single maximum-count invalid-parameter error, carrying no per-UUID
`invalid` payload; and the result is the same whatever the resolver
does, i.e. no UUID is resolved. -/
theorem validateNetworks_max_nets (resolve resolve2 : String → Option NetRec)
    (name : String) (uuids : List String) (h : uuids.length > MAX_NETS) :
    validateNetworks resolve name uuids =
      .error { field := name,
               message := "maximum 64 networks per network pool",
               invalid := none } ∧
    validateNetworks resolve name uuids =
      validateNetworks resolve2 name uuids := by
  constructor
  · simp only [validateNetworks, if_pos h]
    rfl
  · simp only [validateNetworks, if_pos h]

/-- Witness for C7: 65 candidate UUIDs trip the bound, for a resolver
that knows none of them and one that knows all of them alike. -/
theorem validateNetworks_max_nets_witness :
    (List.replicate 65 "u").length > MAX_NETS ∧
    validateNetworks (fun _ => none) "networks" (List.replicate 65 "u") =
      .error { field := "networks",
               message := "maximum 64 networks per network pool",
               invalid := none } ∧
    validateNetworks (fun _ => none) "networks" (List.replicate 65 "u") =
      validateNetworks (fun _ => some { nic_tag := "t" }) "networks"
        (List.replicate 65 "u") :=
  ⟨by decide,
   (validateNetworks_max_nets (fun _ => none) (fun _ => some { nic_tag := "t" })
     "networks" (List.replicate 65 "u") (by decide)).1,
   (validateNetworks_max_nets (fun _ => none) (fun _ => some { nic_tag := "t" })
     "networks" (List.replicate 65 "u") (by decide)).2⟩

/-- The concrete resolver for the C8 counterexample: network `A` has
nic tag `X`, network `B` has nic tag `Y`. -/
def exResolve : String → Option NetRec := fun u =>
  if u = "A" then some { nic_tag := "X" }
  else if u = "B" then some { nic_tag := "Y" }
  else none

/-- C8 counterexample: for the candidate list `[A, B]` with differing
nic tags, `validateNetworks` fails with the tags-do-not-match message
but the error carries `invalid = none` — it does not list the offending
networks (in particular not both of them), contrary to the claim. -/
theorem validateNetworks_mismatch_counterexample :
    validateNetworks exResolve "networks" ["A", "B"] =
      .error { field := "networks",
               message := POOL_TAGS_MATCH_MSG,
               invalid := none } := by
  rfl

/-- C8 (amended): for a candidate list `[A, B]` whose networks resolve
to differing nic tags, `validateNetworks` fails with the fixed
tags-do-not-match invalid-parameter error on the field; the error does
not carry the offending network UUIDs (the `invalid` payload is only
attached on the unknown-network path). -/
theorem validateNetworks_mismatch_amended (resolve : String → Option NetRec)
    (name A B ta tb : String)
    (hA : resolve A = some { nic_tag := ta })
    (hB : resolve B = some { nic_tag := tb })
    (hne : ta ≠ tb) :
    validateNetworks resolve name [A, B] =
      .error { field := name,
               message := POOL_TAGS_MATCH_MSG,
               invalid := none } := by
  have hne2 : ¬(tb = ta) := fun hh => hne hh.symm
  simp [validateNetworks, MAX_NETS, vnStep, hA, hB, hne2]

/-- Witness for C8 (amended) at the concrete resolver. -/
theorem validateNetworks_mismatch_amended_witness :
    exResolve "A" = some { nic_tag := "X" } ∧
    exResolve "B" = some { nic_tag := "Y" } ∧
    ("X" : String) ≠ "Y" ∧
    validateNetworks exResolve "networks" ["A", "B"] =
      .error { field := "networks",
               message := POOL_TAGS_MATCH_MSG,
               invalid := none } :=
  ⟨rfl, rfl, by decide,
   validateNetworks_mismatch_amended exResolve "networks" "A" "B" "X" "Y"
     rfl rfl (by decide)⟩

/-! ## The batch coordinator (nic common module: compareRequests and
commitBatch) -/

/-- A generic moray batch request as the coordinator sees it: the target
bucket and key used for ordering, plus an opaque payload standing for
the rest of the entry. -/
structure MorayReq where
  bucket : String
  key : String
  payload : String := ""
deriving DecidableEq, Repr

/-- `compareRequests(a, b)`: descending on bucket name, then ascending
on key — the comparator handed to the sort before a batch commit. -/
def compareRequests (a b : MorayReq) : Int :=
  if a.bucket < b.bucket then 1
  else if a.bucket > b.bucket then -1
  else if a.key < b.key then -1
  else if a.key > b.key then 1
  else 0

/-- The boolean order induced by `compareRequests`, as used by the
sort: `a` may come before `b` when the comparator is non-positive. -/
def requestLe (a b : MorayReq) : Bool :=
  compareRequests a b ≤ 0

/-- JavaScript `needle.isPrefixOf(hay)` over char lists, spelled out. -/
def charsStartWith : List Char → List Char → Bool
  | [], _ => true
  | _ :: _, [] => false
  | a :: as, b :: bs => a = b && charsStartWith as bs

/-- Substring search over char lists (the `indexOf` test). -/
def charsContain (needle : List Char) : List Char → Bool
  | [] => charsStartWith needle []
  | c :: rest => charsStartWith needle (c :: rest) || charsContain needle rest

/-- `bucket.indexOf(portolan-literal) !== -1`: the bucket name contains
the substring naming the event-sink buckets. -/
def containsPortolan (s : String) : Bool :=
  charsContain "portolan".data s.data

/-- `commitBatch`: split the batch into topology requests and event-sink
(portolan) requests preserving submission order, sort the topology group
with `compareRequests`, and commit the concatenation (the event-sink
group keeps its original relative order at the tail). -/
def commitBatch (batch : List MorayReq) : List MorayReq :=
  let nbatch := batch.filter (fun r => !(containsPortolan r.bucket))
  let pbatch := batch.filter (fun r => containsPortolan r.bucket)
  nbatch.mergeSort requestLe ++ pbatch

/-- The comparator order spelled out: non-positive exactly when the
bucket is strictly greater, or the buckets are equal and the key is not
greater. -/
theorem requestLe_iff (a b : MorayReq) :
    requestLe a b = true ↔
      (b.bucket < a.bucket ∨ (a.bucket = b.bucket ∧ a.key ≤ b.key)) := by
  simp only [requestLe, compareRequests, decide_eq_true_eq]
  split_ifs with h1 h2 h3 h4
  · constructor
    · intro hle
      exact absurd hle (by norm_num)
    · rintro (hlt | ⟨heq, -⟩)
      · exact absurd h1 (lt_asymm hlt)
      · exact absurd (heq ▸ h1) (lt_irrefl _)
  · exact ⟨fun _ => Or.inl h2, fun _ => by norm_num⟩
  · have heq : a.bucket = b.bucket := le_antisymm (not_lt.mp h2) (not_lt.mp h1)
    exact ⟨fun _ => Or.inr ⟨heq, le_of_lt h3⟩, fun _ => by norm_num⟩
  · constructor
    · intro hle
      exact absurd hle (by norm_num)
    · rintro (hlt | ⟨-, hk⟩)
      · exact absurd hlt h2
      · exact absurd h4 (not_lt.mpr hk)
  · have heq : a.bucket = b.bucket := le_antisymm (not_lt.mp h2) (not_lt.mp h1)
    have hkeq : a.key = b.key := le_antisymm (not_lt.mp h4) (not_lt.mp h3)
    exact ⟨fun _ => Or.inr ⟨heq, le_of_eq hkeq⟩, fun _ => by norm_num⟩

/-- `requestLe` is transitive. -/
theorem requestLe_trans (a b c : MorayReq) (hab : requestLe a b)
    (hbc : requestLe b c) : requestLe a c := by
  rw [requestLe_iff] at hab hbc ⊢
  rcases hab with h | ⟨e1, k1⟩ <;> rcases hbc with h2 | ⟨e2, k2⟩
  · exact Or.inl (lt_trans h2 h)
  · exact Or.inl (lt_of_eq_of_lt e2.symm h)
  · exact Or.inl (lt_of_lt_of_eq h2 e1.symm)
  · exact Or.inr ⟨e1.trans e2, le_trans k1 k2⟩

/-- `requestLe` is total. -/
theorem requestLe_total (a b : MorayReq) : requestLe a b || requestLe b a := by
  rw [Bool.or_eq_true, requestLe_iff, requestLe_iff]
  rcases lt_trichotomy a.bucket b.bucket with h | h | h
  · exact Or.inr (Or.inl h)
  · rcases le_total a.key b.key with hk | hk
    · exact Or.inl (Or.inr ⟨h, hk⟩)
    · exact Or.inr (Or.inr ⟨h.symm, hk⟩)
  · exact Or.inl (Or.inl h)

/-! ## Claim about commitBatch -/

/-- C1: the committed order is a permutation of the non-portolan
(topology) mutations sorted by bucket name descending and, within equal
buckets, by key ascending, followed by the portolan (event-sink)
mutations in their original relative submission order. -/
theorem commitBatch_committed_order (batch : List MorayReq) :
    ∃ topo : List MorayReq,
      commitBatch batch =
        topo ++ batch.filter (fun r => containsPortolan r.bucket) ∧
      topo.Perm (batch.filter (fun r => !(containsPortolan r.bucket))) ∧
      topo.Pairwise (fun a b =>
        b.bucket < a.bucket ∨ (a.bucket = b.bucket ∧ a.key ≤ b.key)) := by
  refine ⟨(batch.filter
      (fun r => !(containsPortolan r.bucket))).mergeSort requestLe,
    ?_, List.mergeSort_perm _ _, ?_⟩
  · rfl
  have hs := List.sorted_mergeSort requestLe_trans requestLe_total
    (batch.filter (fun r => !(containsPortolan r.bucket)))
  exact hs.imp (fun h => (requestLe_iff _ _).mp h)

/-! ## The LDAP filter builder (ldapFilter in src/lib/apis/moray.js)

The input is an arbitrary JavaScript value, embedded as `JSVal`.
Throwing (`.substr` on a non-string element) is embedded as
`Except.error ()`; the happy paths return the result value.  Note that
the source guards the filter property shortcut with
`typeof (inObj.filter === 'string')` — the `typeof` is applied to the
result of the comparison, which is always the truthy string naming the
boolean type, so the guard only tests for the presence of the property;
the embedding therefore has no type test there. -/

/-- A JavaScript value. -/
inductive JSVal where
  | null
  | str (s : String)
  | num (n : Int)
  | bool (b : Bool)
  | arr (elems : List JSVal)
  | obj (fields : List (String × JSVal))
deriving Repr

/-- JavaScript truthiness of a value. -/
def jsFalsy : JSVal → Bool
  | .null => true
  | .str s => s = ""
  | .num n => n = 0
  | .bool b => !b
  | .arr _ => false
  | .obj _ => false

/-- JavaScript string conversion, as used by the `%s` format
directive; arrays join their elements with commas. -/
def jsToString : JSVal → String
  | .null => "null"
  | .str s => s
  | .num n => toString n
  | .bool b => if b then "true" else "false"
  | .arr l => String.intercalate "," (l.attach.map (fun e => jsToString e.1))
  | .obj _ => "[object Object]"
decreasing_by
  have := List.sizeOf_lt_of_mem e.2
  simp only [JSVal.arr.sizeOf_spec]
  omega

/-- The own enumerable key/value pairs of a value (`Object.keys` order):
objects list their properties, arrays their indexed elements, and
primitives have none.  (Strings never reach the key iteration in
`ldapFilter` — they are returned earlier.) -/
def jsOwnKvs : JSVal → List (String × JSVal)
  | .obj kvs => kvs
  | .arr l => l.enum.map (fun p => (toString p.1, p.2))
  | _ => []

/-- `hasOwnProperty`. -/
def jsHasOwn (k : String) (kvs : List (String × JSVal)) : Bool :=
  kvs.any (fun p => p.1 = k)

/-- Property access on the own key/value pairs. -/
def jsGet (k : String) (kvs : List (String × JSVal)) : Option JSVal :=
  (kvs.find? (fun p => p.1 = k)).map Prod.snd

/-- The later pieces of a comma split: each piece is trimmed on the left
(whitespace after the comma) and, when another piece follows, on the
right (whitespace before the next comma). -/
def splitCommaLater : List String → List String
  | [] => []
  | [x] => [x.trimLeft]
  | x :: rest => x.trimLeft.trimRight :: splitCommaLater rest

/-- JavaScript `split` on a comma surrounded by optional whitespace:
whitespace adjacent to each comma is consumed, whitespace at the two
ends of the string is kept. -/
def splitCommaWs (s : String) : List String :=
  match s.split (fun c => c = ',') with
  | [] => []
  | [x] => [x]
  | x :: rest => x.trimRight :: splitCommaLater rest

/-- One element of an object-typed query value: a leading `!` makes a
negated equality clause, otherwise a plain equality clause; a non-string
element throws (`.substr` is not a function). -/
def clauseForElem (i : String) (e : JSVal) : Except Unit String :=
  match e with
  | .str s =>
    match s.data with
    | '!' :: rest => .ok ("(!(" ++ i ++ "=" ++ String.mk rest ++ "))")
    | _ => .ok ("(" ++ i ++ "=" ++ s ++ ")")
  | _ => .error ()

/-- The clauses contributed by one query field: skipped entirely when a
bucket schema is given and the field is not indexed; a comma-separated
string value is first split into a list; object-typed values (arrays,
objects, and null, whose `typeof` is the object type) become an
or-group over their elements; primitive values become one equality
clause. -/
def ldapFilterKey (bucket : Option (List String)) (i : String) (v : JSVal) :
    Except Unit (List String) :=
  if (match bucket with
      | some idx => !(idx.contains i)
      | none => false) then
    .ok []
  else
    let v := match v with
      | .str s =>
        if s.contains ',' then
          JSVal.arr ((splitCommaWs s).map JSVal.str)
        else
          JSVal.str s
      | other => other
    match v with
    | .arr l => do
      let cs ← l.mapM (clauseForElem i)
      .ok ("(|" :: cs ++ [")"])
    | .obj kvs => do
      let cs ← (kvs.map Prod.snd).mapM (clauseForElem i)
      .ok ("(|" :: cs ++ [")"])
    | .null => .ok ["(|", ")"]
    | prim => .ok ["(" ++ i ++ "=" ++ jsToString prim ++ ")"]

/-- `ldapFilter(inObj, bucket)`: empty filter for a falsy input, a
string input is returned as is, an input with no own keys gives the
empty filter, an input with a `filter` property returns that property
value unchanged (see the note above on the vacuous type guard), and
otherwise the per-field clauses are concatenated and wrapped in a
conjunction when there is more than one. -/
def ldapFilter (inObj : JSVal) (bucket : Option (List String)) :
    Except Unit JSVal :=
  if jsFalsy inObj then .ok (.str "")
  else match inObj with
  | .str s => .ok (.str s)
  | _ =>
    let kvs := jsOwnKvs inObj
    if kvs.isEmpty then .ok (.str "")
    else if jsHasOwn "filter" kvs then .ok ((jsGet "filter" kvs).getD .null)
    else do
      let parts ← kvs.foldlM
        (fun acc p => do
          let cs ← ldapFilterKey bucket p.1 p.2
          pure (acc ++ cs)) ([] : List String)
      let parts := if parts.length > 1 then "(&" :: (parts ++ [")"]) else parts
      .ok (.str (String.join parts))

/-! ## Claim about ldapFilter -/

/-- C9: for every non-null query object carrying a `filter` property,
`ldapFilter` returns the value of that property unchanged — whatever
bucket schema is supplied and whatever the value is, string or not —
bypassing the indexed-field clause construction. -/
theorem ldapFilter_returns_filter_property (bucket : Option (List String))
    (kvs : List (String × JSVal)) (v : JSVal)
    (hv : jsGet "filter" kvs = some v) :
    ldapFilter (.obj kvs) bucket = .ok v := by
  have hne : kvs ≠ [] := by
    intro h
    rw [h] at hv
    simp [jsGet] at hv
  have hfind : ∃ p, kvs.find? (fun p => p.1 = "filter") = some p ∧ p.2 = v := by
    unfold jsGet at hv
    cases hq : kvs.find? (fun p => p.1 = "filter") with
    | none => rw [hq] at hv; simp at hv
    | some p =>
      rw [hq] at hv
      simp at hv
      exact ⟨p, rfl, hv⟩
  rcases hfind with ⟨p, hp, hpv⟩
  have hhas : jsHasOwn "filter" kvs = true := by
    have hmem := List.find?_some hp
    have hpm := List.mem_of_find?_eq_some hp
    exact List.any_eq_true.mpr ⟨p, hpm, hmem⟩
  simp [ldapFilter, jsFalsy, jsOwnKvs, List.isEmpty_iff, hne, hhas, jsGet, hp, hpv]

/-- Witness for C9: the filter property value is returned even when it
is a number (not a string), with an indexed-bucket schema supplied. -/
theorem ldapFilter_returns_filter_property_witness :
    jsGet "filter" [("filter", JSVal.num 42)] = some (JSVal.num 42) ∧
    ldapFilter (.obj [("filter", JSVal.num 42)]) (some ["owner_uuid"]) =
      .ok (JSVal.num 42) :=
  ⟨rfl, ldapFilter_returns_filter_property (some ["owner_uuid"])
    [("filter", JSVal.num 42)] (JSVal.num 42) rfl⟩

end Napi
